import Mathlib

/-!
A shallow embedding of the component runtime in `src/Component.py`:
the register store with accessor/mutator gating, the API-permission
layer, the message queue, the connection graph, and the dispatch
engine.  Python functions that return error objects are embedded as
functions into `PyResult`; an uncaught Python exception is a separate
constructor of the same result type.  Machinery that mutates `self` is
embedded as explicit state passing: each operation returns its result
together with the updated state.
-/

/-- Kinds of Python exceptions that the source can raise (as opposed to
the error objects that it constructs and returns as values). -/
inductive ExnKind where
  | typeError
  | attributeError
  | keyError
  deriving DecidableEq, Repr

/-- The error taxonomy of the spec.  Each constructor corresponds to one
error-object construction in `src/Component.py` (class plus message):
`keyNotFound` is the returned KeyError "Register does not exist",
`keyAlreadyExists` the KeyError "Register already exists",
`accessDenied` the PermissionError "Cannot access register" (and, for
`update`, "Cannot update register contents"), `permissionDenied` the
PermissionError "Function not executable", `immutableRegister` the
PermissionError on a frozen register, `notInvocable` the returned
TypeError of `eval`, `operationNotFound` the KeyError "Function not
available", `argumentBindingError` the SyntaxError "Failure to match
arguments properly" carrying the offending parameter name,
`criteriaNotSatisfied` the PermissionError "Criteria is not satisfied",
`entityNotFound` / `notConnected` the two ConnectionError or KeyError
cases of the connection graph, `permissionLocked` the PermissionError of
the api layer, and `componentBlocked` the BlockedComponentError. -/
inductive CompError where
  | keyNotFound
  | keyAlreadyExists
  | accessDenied
  | permissionDenied
  | immutableRegister
  | notInvocable
  | operationNotFound
  | argumentBindingError (param : String)
  | criteriaNotSatisfied
  | entityNotFound
  | notConnected
  | permissionLocked
  | componentBlocked
  deriving DecidableEq, Repr

/-- Result of one Python call: a returned value, a returned error
object, or an uncaught exception propagating out of the call. -/
inductive PyResult (α : Type) where
  | ok (a : α)
  | err (e : CompError)
  | raised (e : ExnKind)
  deriving DecidableEq

/-- Python dict assignment `d[k] = v`. -/
def setK {α : Type} (f : String → Option α) (k : String) (v : α) :
    String → Option α :=
  fun x => if x = k then some v else f x

/-- Python `del d[k]`. -/
def delK {α : Type} (f : String → Option α) (k : String) :
    String → Option α :=
  fun x => if x = k then none else f x

/-- The register store of a component: the four per-key dictionaries
`registers`, `accessors`, `mutators`, `immutables` created in
`Component.__init__` (source lines 105-108), each modelled as a map into
`Option`. -/
structure RegStore (V Ctx : Type) where
  registers : String → Option V
  accessors : String → Option (Ctx → Bool)
  mutators : String → Option (Ctx → Bool)
  immutables : String → Option Bool

/-- The four empty dictionaries a fresh component starts with. -/
def emptyStore (V Ctx : Type) : RegStore V Ctx :=
  ⟨fun _ => none, fun _ => none, fun _ => none, fun _ => none⟩

/-- `Component.get` (source lines 138-155): KeyError when the key is
missing from the value map or the accessor map, otherwise the stored
value if the accessor predicate accepts the context, otherwise the
PermissionError "Cannot access register". -/
def RegStore.get {V Ctx : Type} (s : RegStore V Ctx) (key : String)
    (context : Ctx) : PyResult V :=
  match s.registers key, s.accessors key with
  | some v, some a => if a context then .ok v else .err .accessDenied
  | _, _ => .err .keyNotFound

/-- `Component.update` (source lines 193-219): KeyError when the key is
missing from the value map or the mutator map, PermissionError when the
mutator predicate rejects the context, otherwise the value map is
reassigned at the key. -/
def RegStore.update {V Ctx : Type} (s : RegStore V Ctx) (key : String)
    (value : V) (context : Ctx) : PyResult Unit × RegStore V Ctx :=
  match s.registers key, s.mutators key with
  | some _, some mu =>
    if ¬ mu context then (.err .accessDenied, s)
    else (.ok (), { s with registers := setK s.registers key value })
  | _, _ => (.err .keyNotFound, s)

/-- `Component.delete` (source lines 221-248): KeyError when the key is
missing from any of the four maps.  The guard on source line 240 reads
`if self.immutables[key] and self.mutators[key](context):` — the
PermissionError is returned only when the register is immutable AND its
mutator predicate accepts the context; in every other case all four
entries are deleted. -/
def RegStore.delete {V Ctx : Type} (s : RegStore V Ctx) (key : String)
    (context : Ctx) : PyResult Unit × RegStore V Ctx :=
  match s.registers key, s.accessors key, s.mutators key, s.immutables key with
  | some _, some _, some mu, some im =>
    if im && mu context then (.err .immutableRegister, s)
    else
      (.ok (), { registers := delK s.registers key,
                 accessors := delK s.accessors key,
                 mutators := delK s.mutators key,
                 immutables := delK s.immutables key })
  | _, _, _, _ => (.err .keyNotFound, s)

/-- `Component.add` (source lines 250-283): KeyError when the key is
already present in any of the four maps, otherwise all four maps gain an
entry for the key. -/
def RegStore.add {V Ctx : Type} (s : RegStore V Ctx) (key : String)
    (accessor mutator : Ctx → Bool) (immutability : Bool) (value : V) :
    PyResult Unit × RegStore V Ctx :=
  if (s.registers key).isSome || (s.accessors key).isSome ||
      (s.mutators key).isSome || (s.immutables key).isSome then
    (.err .keyAlreadyExists, s)
  else
    (.ok (), { registers := setK s.registers key value,
               accessors := setK s.accessors key accessor,
               mutators := setK s.mutators key mutator,
               immutables := setK s.immutables key immutability })

/-- `Component.modify_mutator` (source lines 285-305): KeyError when the
key is missing from the value, mutator or immutability maps,
PermissionError when the register is immutable, otherwise the mutator
map is reassigned at the key. -/
def RegStore.modify_mutator {V Ctx : Type} (s : RegStore V Ctx)
    (key : String) (value : Ctx → Bool) : PyResult Unit × RegStore V Ctx :=
  match s.registers key, s.mutators key, s.immutables key with
  | some _, some _, some im =>
    if im then (.err .immutableRegister, s)
    else (.ok (), { s with mutators := setK s.mutators key value })
  | _, _, _ => (.err .keyNotFound, s)

/-- `Component.modify_accessor` (source lines 307-330): KeyError when
the key is missing from the value, accessor or immutability maps,
PermissionError when the register is immutable, otherwise the accessor
map is reassigned at the key. -/
def RegStore.modify_accessor {V Ctx : Type} (s : RegStore V Ctx)
    (key : String) (value : Ctx → Bool) : PyResult Unit × RegStore V Ctx :=
  match s.registers key, s.accessors key, s.immutables key with
  | some _, some _, some im =>
    if im then (.err .immutableRegister, s)
    else (.ok (), { s with accessors := setK s.accessors key value })
  | _, _, _ => (.err .keyNotFound, s)

/-- A dynamic register value as `eval` sees it: either plain data or a
callable (the embedding fixes callables to integer functions; only
callability and application matter to the control flow of `eval`). -/
inductive RVal where
  | data (n : Int)
  | fn (f : Int → Int)

/-- Python `callable(v)`. -/
def RVal.isCallable : RVal → Bool
  | .data _ => false
  | .fn _ => true

/-- The Python call `v(content)`: applies a callable; calling a
non-callable object raises TypeError. -/
def RVal.call : RVal → Int → PyResult Int
  | .data _, _ => .raised .typeError
  | .fn f, x => .ok (f x)

/-- `Component.eval` (source lines 157-191): KeyError when the key is
missing from the value or accessor maps.  The guard on source line 178
reads `elif callable(self.registers[key]):` and returns the TypeError
"Cannot call uncallable register" for the *callable* case; a
non-callable register falls through the accessor check to the call
`self.registers[key](content)` on line 191. -/
def RegStore.eval {Ctx : Type} (s : RegStore RVal Ctx) (key : String)
    (context : Ctx) (content : Int) : PyResult Int :=
  match s.registers key, s.accessors key with
  | some v, some a =>
    if v.isCallable then .err .notInvocable
    else if ¬ a context then .err .accessDenied
    else v.call content
  | _, _ => .err .keyNotFound

/-- Claim C1: for every key `k`, values `v`, predicates `a` and `m`, and
context `ctx` such that `a ctx` is true, on a component whose register
store does not contain `k`, calling `add k a m false v` succeeds and a
following `get k ctx` returns exactly `v`, not an error. -/
theorem add_then_get_returns_value {V Ctx : Type}
    (s : RegStore V Ctx) (k : String) (a m : Ctx → Bool) (v : V) (ctx : Ctx)
    (h1 : s.registers k = none) (h2 : s.accessors k = none)
    (h3 : s.mutators k = none) (h4 : s.immutables k = none)
    (ha : a ctx = true) :
    (s.add k a m false v).1 = .ok () ∧
    (s.add k a m false v).2.get k ctx = .ok v := by
  unfold RegStore.add RegStore.get
  simp [h1, h2, h3, h4, setK, ha]

/-- Witness for C1 at a concrete input: the empty store over natural
values and contexts, key "x", value 42, always-true predicates. -/
theorem add_then_get_returns_value_witness :
    ((emptyStore Nat Nat).add "x" (fun _ => true) (fun _ => true) false 42).1
      = .ok () ∧
    ((emptyStore Nat Nat).add "x" (fun _ => true) (fun _ => true) false 42).2.get
      "x" 0 = .ok 42 :=
  add_then_get_returns_value (emptyStore Nat Nat) "x" (fun _ => true)
    (fun _ => true) 42 0 rfl rfl rfl rfl rfl

/-- Claim C2 is false on the code: for the register "k" added with
`immutability = true` and a mutator that rejects every context, `delete`
does not fail with the ImmutableRegister error — the guard on source
line 240 additionally requires the mutator to accept the context, so the
delete succeeds and the register is removed. -/
theorem delete_immutable_with_denying_mutator_succeeds :
    ((((emptyStore Nat Nat).add "k" (fun _ => true) (fun _ => false) true
        7).2).delete "k" 0).1 = .ok () ∧
    (((((emptyStore Nat Nat).add "k" (fun _ => true) (fun _ => false) true
        7).2).delete "k" 0).2).registers "k" = none := by
  constructor <;> rfl

/-- Claim C3 is false on the code: the callability test of `eval` is
inverted.  On a register "f" holding the callable `fun x => x + 1` with
an always-true accessor, `eval` returns the NotInvocable error instead
of invoking it; on a register "d" holding plain data 5, `eval` falls
through to the call and raises TypeError instead of returning the
NotInvocable error. -/
theorem eval_inverted_callable_check :
    (((emptyStore RVal Nat).add "f" (fun _ => true) (fun _ => true) false
        (.fn (fun x => x + 1))).2).eval "f" 0 3 = .err .notInvocable ∧
    (((emptyStore RVal Nat).add "d" (fun _ => true) (fun _ => true) false
        (.data 5)).2).eval "d" 0 3 = .raised .typeError := by
  constructor <;> rfl

/-- One register-store operation, as named by the spec: the five
mutating operations together with the two read operations. -/
inductive RegOp (V Ctx : Type) where
  | addOp (key : String) (accessor mutator : Ctx → Bool)
      (immutability : Bool) (value : V)
  | updateOp (key : String) (value : V) (context : Ctx)
  | deleteOp (key : String) (context : Ctx)
  | modifyAccessorOp (key : String) (value : Ctx → Bool)
  | modifyMutatorOp (key : String) (value : Ctx → Bool)
  | getOp (key : String) (context : Ctx)
  | evalOp (key : String) (context : Ctx)

/-- The state effect of one register-store operation, whether it
succeeds or returns an error.  `get` (source lines 138-155) and `eval`
(source lines 157-191) assign to none of the four maps, so they leave
the store unchanged. -/
def applyOp {V Ctx : Type} (s : RegStore V Ctx) : RegOp V Ctx → RegStore V Ctx
  | .addOp k a m i v => (s.add k a m i v).2
  | .updateOp k v c => (s.update k v c).2
  | .deleteOp k c => (s.delete k c).2
  | .modifyAccessorOp k v => (s.modify_accessor k v).2
  | .modifyMutatorOp k v => (s.modify_mutator k v).2
  | .getOp _ _ => s
  | .evalOp _ _ => s

/-- The state effect of a sequence of register-store operations. -/
def applyOps {V Ctx : Type} (s : RegStore V Ctx) (ops : List (RegOp V Ctx)) :
    RegStore V Ctx :=
  ops.foldl applyOp s

/-- The key-agreement invariant of the spec: a key is present in the
value map iff it is present in the accessor map, iff in the mutator map,
iff in the immutability map. -/
def RegInvariant {V Ctx : Type} (s : RegStore V Ctx) : Prop :=
  ∀ k, ((s.registers k).isSome ↔ (s.accessors k).isSome) ∧
    ((s.registers k).isSome ↔ (s.mutators k).isSome) ∧
    ((s.registers k).isSome ↔ (s.immutables k).isSome)

theorem regInvariant_empty {V Ctx : Type} : RegInvariant (emptyStore V Ctx) := by
  intro k
  simp [emptyStore]

theorem regInvariant_applyOp {V Ctx : Type} {s : RegStore V Ctx}
    (h : RegInvariant s) (op : RegOp V Ctx) : RegInvariant (applyOp s op) := by
  cases op with
  | addOp k a m i v =>
    unfold applyOp RegStore.add
    by_cases hc : ((s.registers k).isSome || (s.accessors k).isSome ||
        (s.mutators k).isSome || (s.immutables k).isSome) = true
    · simpa [hc] using h
    · simp only [hc]
      intro k2
      by_cases hk : k2 = k
      · subst hk; simp [setK]
      · simpa [setK, hk] using h k2
  | updateOp k v c =>
    unfold applyOp RegStore.update
    cases hr : s.registers k with
    | none => simpa [hr] using h
    | some v0 =>
      cases hm : s.mutators k with
      | none => simpa [hr, hm] using h
      | some mu =>
        by_cases hmc : mu c
        · simp only [hr, hm, hmc, not_true, if_neg, if_pos]
          intro k2
          by_cases hk : k2 = k
          · subst hk; simpa [setK, hr] using h k2
          · simpa [setK, hk] using h k2
        · simpa [hr, hm, hmc] using h
  | deleteOp k c =>
    unfold applyOp RegStore.delete
    cases hr : s.registers k with
    | none => simpa [hr] using h
    | some v0 =>
      cases ha : s.accessors k with
      | none => simpa [hr, ha] using h
      | some a0 =>
        cases hm : s.mutators k with
        | none => simpa [hr, ha, hm] using h
        | some mu =>
          cases hi : s.immutables k with
          | none => simpa [hr, ha, hm, hi] using h
          | some im =>
            by_cases hg : (im && mu c) = true
            · simpa [hr, ha, hm, hi, hg] using h
            · simp only [hr, ha, hm, hi, hg]
              intro k2
              by_cases hk : k2 = k
              · subst hk; simp [delK]
              · simpa [delK, hk] using h k2
  | modifyAccessorOp k v =>
    unfold applyOp RegStore.modify_accessor
    cases hr : s.registers k with
    | none => simpa [hr] using h
    | some v0 =>
      cases ha : s.accessors k with
      | none => simpa [hr, ha] using h
      | some a0 =>
        cases hi : s.immutables k with
        | none => simpa [hr, ha, hi] using h
        | some im =>
          cases im with
          | true => simpa [hr, ha, hi] using h
          | false =>
            simp only [hr, ha, hi]
            intro k2
            by_cases hk : k2 = k
            · subst hk; simpa [setK, ha] using h k2
            · simpa [setK, hk] using h k2
  | modifyMutatorOp k v =>
    unfold applyOp RegStore.modify_mutator
    cases hr : s.registers k with
    | none => simpa [hr] using h
    | some v0 =>
      cases hm : s.mutators k with
      | none => simpa [hr, hm] using h
      | some mu =>
        cases hi : s.immutables k with
        | none => simpa [hr, hm, hi] using h
        | some im =>
          cases im with
          | true => simpa [hr, hm, hi] using h
          | false =>
            simp only [hr, hm, hi]
            intro k2
            by_cases hk : k2 = k
            · subst hk; simpa [setK, hm] using h k2
            · simpa [setK, hk] using h k2
  | getOp k c => exact h
  | evalOp k c => exact h

theorem regInvariant_applyOps {V Ctx : Type} {s : RegStore V Ctx}
    (h : RegInvariant s) (ops : List (RegOp V Ctx)) :
    RegInvariant (applyOps s ops) := by
  induction ops generalizing s with
  | nil => exact h
  | cons op rest ih => exact ih (regInvariant_applyOp h op)

/-- Claim C9: for every sequence of register-store operations performed
from the initial (empty) store, whether each succeeds or returns an
error, a key is present in the value map iff it is present in the
accessor map, iff in the mutator map, iff in the immutability map — the
four maps are never left in partial agreement. -/
theorem regstore_sequences_preserve_key_agreement (V Ctx : Type)
    (ops : List (RegOp V Ctx)) :
    RegInvariant (applyOps (emptyStore V Ctx) ops) :=
  regInvariant_applyOps regInvariant_empty ops

/-- A dynamic Python value as it appears in Message fields: None, a
bool, an int, a string, or some other object (a dict, a predicate, a
component reference, ...), which is always truthy. -/
inductive Dyn where
  | none
  | bool (b : Bool)
  | int (n : Int)
  | str (s : String)
  | obj
  deriving DecidableEq, Repr

/-- Python truthiness, as tested by `if not arg:`. -/
def Dyn.truthy : Dyn → Bool
  | .none => false
  | .bool b => b
  | .int n => n != 0
  | .str s => s != ""
  | .obj => true

/-- The `Message` class (source lines 6-54).  `func` is the string
naming the requested operation; the other attributes are dynamic values
(an attribute whose Python value is None is modelled as `Dyn.none`). -/
structure Message where
  source : Dyn
  func : String
  func_context : Dyn
  metadata : Dyn
  key : Dyn
  value : Dyn
  accessor : Dyn
  mutator : Dyn
  context : Dyn
  criteria : Dyn
  entity : Dyn
  deriving DecidableEq

/-- `getattr(message, attr, None)` as used on source line 373: the named
attribute of the Message, defaulting to None for any other name. -/
def Message.getattr (m : Message) (attr : String) : Dyn :=
  if attr = "source" then m.source
  else if attr = "func" then .str m.func
  else if attr = "func_context" then m.func_context
  else if attr = "metadata" then m.metadata
  else if attr = "key" then m.key
  else if attr = "value" then m.value
  else if attr = "accessor" then m.accessor
  else if attr = "mutator" then m.mutator
  else if attr = "context" then m.context
  else if attr = "criteria" then m.criteria
  else if attr = "entity" then m.entity
  else .none

/-- An entry of `api_permissions`: either a predicate on the function
context, or — in the merge branch of `__init__` (source line 132) — the
bare boolean `True`, which is not callable. -/
inductive ApiPerm where
  | pred (f : Dyn → Bool)
  | rawBool (b : Bool)

/-- The Python call `p(context)` on an `api_permissions` entry: calling
the bare boolean raises TypeError. -/
def ApiPerm.callOn : ApiPerm → Dyn → PyResult Bool
  | .pred f, ctx => .ok (f ctx)
  | .rawBool _, _ => .raised .typeError

/-- The names enumerated by `inspect.getmembers(self, inspect.ismethod)`
on source lines 111-114 for the class `Component`: every bound method
written in Python, dunder constructor included, in the sorted order
`getmembers` produces. -/
def componentMethodNames : List String :=
  ["__init__", "add", "connect_entity", "delete", "disconnect_entity",
   "eval", "execute_message_contents", "get", "get_next_message",
   "message_entity", "modify_accessor", "modify_api_permission",
   "modify_connection_criteria", "modify_disconnection_criteria",
   "modify_mutator", "push_message", "run", "update"]

/-- `inspect.signature(func).parameters.keys()` (source line 369) for
each bound method of `Component`: the formal parameter names in
declaration order, `self` excluded (the methods are bound). -/
def paramNames : String → List String
  | "__init__" =>
    ["message_key_func", "connection_criteria", "disconnection_criteria",
     "is_connection_criteria_mutable", "is_disconnection_criteria_mutable",
     "api_accessibility", "api_mutable"]
  | "add" => ["key", "accessor", "mutator", "immutability", "value"]
  | "connect_entity" => ["entity", "context"]
  | "delete" => ["key", "context"]
  | "disconnect_entity" => ["entity", "context"]
  | "eval" => ["key", "context", "content"]
  | "execute_message_contents" => ["message"]
  | "get" => ["key", "context"]
  | "get_next_message" => []
  | "message_entity" => ["entity", "message"]
  | "modify_accessor" => ["key", "value"]
  | "modify_api_permission" => ["key", "value", "context"]
  | "modify_connection_criteria" => ["criteria"]
  | "modify_disconnection_criteria" => ["criteria"]
  | "modify_mutator" => ["key", "value"]
  | "push_message" => ["message"]
  | "run" => []
  | "update" => ["key", "value", "context"]
  | _ => []

/-- One component's state.  The class-level directory `entities` is kept
outside (see `Directory`); the component itself is identified in the
directory by `cid`. -/
structure Component where
  cid : Nat
  store : RegStore RVal Dyn
  messages : List Message
  message_key_func : Message → Int
  exec_list : List String
  connection_criteria : String → Dyn → Bool
  disconnection_criteria : String → Dyn → Bool
  connected_entities : List String
  is_connection_criteria_mutable : Bool
  is_disconnection_criteria_mutable : Bool
  api_permissions : String → Option ApiPerm
  api_mutable : Dyn → Bool

/-- The process-wide directory `Component.entities` (source line 90), a
class attribute shared by every instance, mapping a name to the
identity of the component registered under it. -/
abbrev Directory : Type := String → Option Nat

/-- Key-set equality of two Python dicts,
`api_accessibility.keys() != self.exec_list.keys()` (source line 128). -/
def keySetEq (l r : List String) : Bool :=
  l.all (fun k => r.contains k) && r.all (fun k => l.contains k)

/-- Association-list lookup, for the `api_accessibility` dict. -/
def lookupA {α : Type} : List (String × α) → String → Option α
  | [], _ => Option.none
  | (k, v) :: rest, x => if x = k then some v else lookupA rest x

/-- `Component.__init__` (source lines 92-136).  The registration key on
source line 121 is `self.__name__`, an attribute a plain `Component`
instance does not itself have (a subclass must supply it; on the base
class the lookup raises AttributeError); it is modelled as the explicit
argument `selfName`.  Registration is the plain dict assignment
`self.entities[self.__name__] = self`, with no existence check.  The
permission table (source lines 123-136): with no (or an empty)
`api_accessibility` dict, every discovered method is mapped to an
always-true lambda; with a dict whose key set differs from the method
set, present entries are kept and missing ones are set to the bare
boolean `True`; with a dict covering exactly the method set, the dict is
taken as is. -/
def initComponent (selfName : String) (selfId : Nat) (d : Directory)
    (message_key_func : Message → Int)
    (connection_criteria disconnection_criteria : String → Dyn → Bool)
    (is_conn_mut is_disc_mut : Bool)
    (api_accessibility : Option (List (String × (Dyn → Bool))))
    (api_mutable : Dyn → Bool) : Component × Directory :=
  let exec_list := componentMethodNames
  let d2 : Directory := fun n => if n = selfName then some selfId else d n
  let api_permissions : String → Option ApiPerm :=
    match api_accessibility with
    | Option.none =>
      fun k => if exec_list.contains k then some (.pred (fun _ => true))
               else Option.none
    | some l =>
      if l.isEmpty then
        -- `if not api_accessibility:` also holds for an empty dict
        fun k => if exec_list.contains k then some (.pred (fun _ => true))
                 else Option.none
      else if ¬ keySetEq (l.map Prod.fst) exec_list then
        fun k => if exec_list.contains k then
                   some (match lookupA l k with
                         | some f => .pred f
                         | Option.none => .rawBool true)
                 else Option.none
      else
        fun k => (lookupA l k).map .pred
  ({ cid := selfId,
     store := emptyStore RVal Dyn,
     messages := [],
     message_key_func := message_key_func,
     exec_list := exec_list,
     connection_criteria := connection_criteria,
     disconnection_criteria := disconnection_criteria,
     connected_entities := [],
     is_connection_criteria_mutable := is_conn_mut,
     is_disconnection_criteria_mutable := is_disc_mut,
     api_permissions := api_permissions,
     api_mutable := api_mutable }, d2)

/-- The result of a successful dispatch resolution: the resolved bound
method together with the keyword arguments bound from the Message.  The
dispatch engine is modelled up to the point of the invocation
`func(**arg_map)` (source line 381); the semantics of the individual
operations are modelled separately in this file. -/
inductive Dispatched where
  | call (func : String) (args : List (String × Dyn))
  deriving DecidableEq

/-- The argument-binding loop of `execute_message_contents` (source
lines 370-380): for each formal parameter name in order, fetch the
same-named Message attribute with `getattr(message, arg_name, None)`,
and return the SyntaxError naming the parameter when the fetched value
is falsy (`if not arg:`) — truthiness, not presence, is what is
tested. -/
def bindArgs (m : Message) : List String → PyResult (List (String × Dyn))
  | [] => .ok []
  | p :: rest =>
    let arg := m.getattr p
    if ¬ arg.truthy then .err (.argumentBindingError p)
    else
      match bindArgs m rest with
      | .ok l => .ok ((p, arg) :: l)
      | .err e => .err e
      | .raised e => .raised e

/-- `Component.execute_message_contents` (source lines 348-381):
KeyError when the named function is not in `exec_list`; a raised
KeyError if it is in `exec_list` but absent from `api_permissions`
(subscription on source line 365); PermissionError when the permission
entry evaluates falsy on the function context; otherwise the binding
loop, and on success the resolved call. -/
def Component.execute_message_contents (c : Component) (m : Message) :
    PyResult Dispatched :=
  if ¬ c.exec_list.contains m.func then .err .operationNotFound
  else
    match c.api_permissions m.func with
    | Option.none => .raised .keyError
    | some p =>
      match p.callOn m.func_context with
      | .raised e => .raised e
      | .err e => .err e
      | .ok b =>
        if ¬ b then .err .permissionDenied
        else
          match bindArgs m (paramNames m.func) with
          | .err e => .err e
          | .raised e => .raised e
          | .ok args => .ok (.call m.func args)

/-- Modelled from the spec: the priority queue comes from the external
`heapqueue` module (`from heapqueue import *`, source line 3), which is
not part of this repository.  Spec section 4.3: pop removes and returns
the highest-priority message per the key function, or a sentinel empty
result when the queue is empty; the docstring of `get_next_message`
names that sentinel None.  Modelled as removal of a minimal-key
element. -/
def popMin (keyFn : Message → Int) : List Message →
    Option (Message × List Message)
  | [] => Option.none
  | m :: rest =>
    match popMin keyFn rest with
    | Option.none => some (m, [])
    | some (m2, rest2) =>
      if keyFn m ≤ keyFn m2 then some (m, rest) else some (m2, m :: rest2)

/-- `Component.push_message` (source lines 332-338): inserts the message
into the queue (priority is realised at pop time in this model). -/
def Component.push_message (c : Component) (m : Message) : Component :=
  { c with messages := c.messages ++ [m] }

/-- `Component.get_next_message` (source lines 340-346): pops the next
message, or yields None when the queue is empty. -/
def Component.get_next_message (c : Component) : Option Message × Component :=
  match popMin c.message_key_func c.messages with
  | Option.none => (Option.none, c)
  | some (m, rest) => (some m, { c with messages := rest })

/-- Truthiness of the object tested on source line 538: the guard reads
`if not Message:`, naming the message *class*, not the popped local
variable `message`; a class object is always truthy. -/
def messageClassTruthy : Bool := true

/-- `Component.run` (source lines 523-541).  Because the guard on line
538 tests the class `Message` instead of the popped variable, the
blocked branch is unreachable; when the queue is empty the pop yields
None and execution falls through to `execute_message_contents(None)`,
whose first attribute access `message.func` (line 363) raises
AttributeError. -/
def Component.run (c : Component) : PyResult Dispatched × Component :=
  let r := c.get_next_message
  if ¬ messageClassTruthy then (.err .componentBlocked, r.2)
  else
    match r.1 with
    | some m => (r.2.execute_message_contents m, r.2)
    | Option.none => (.raised .attributeError, r.2)

/-- The membership test on source lines 435 and 459:
`if str not in self.entities.keys:` — `keys` is the bound method object
(it is not called), and a membership test against a method object raises
TypeError; the value tested is moreover the builtin class `str`, not the
entity argument. -/
def strInEntitiesKeys : PyResult Bool := .raised .typeError

/-- The membership test on source line 476:
`if entity not in self.entities.keys:` — again the un-called bound
method object, so the test raises TypeError before the entity name is
ever compared. -/
def inEntitiesKeys (_entity : String) : PyResult Bool := .raised .typeError

/-- `Component.connect_entity` (source lines 417-437): PermissionError
when the connection criteria reject; otherwise the directory membership
test on line 435, which raises; the append to `connected_entities` on
line 437 is unreachable. -/
def Component.connect_entity (c : Component) (entity : String)
    (context : Dyn) : PyResult Unit × Component :=
  if ¬ c.connection_criteria entity context then
    (.err .criteriaNotSatisfied, c)
  else
    match strInEntitiesKeys with
    | .raised e => (.raised e, c)
    | .err e => (.err e, c)
    | .ok inDir =>
      if ¬ inDir then (.err .entityNotFound, c)
      else (.ok (), { c with connected_entities :=
                        c.connected_entities ++ [entity] })

/-- `Component.disconnect_entity` (source lines 439-463): PermissionError
when the disconnection criteria reject; otherwise the directory
membership test on line 459, which raises.  (Even past that, line 461
would test `str not in self.connected_entities` — the builtin class
against a list of strings, never a member — so the KeyError "Entity is
not connected" would always follow; the removal on line 463 is doubly
unreachable.) -/
def Component.disconnect_entity (c : Component) (entity : String)
    (context : Dyn) : PyResult Unit × Component :=
  if ¬ c.disconnection_criteria entity context then
    (.err .criteriaNotSatisfied, c)
  else
    match strInEntitiesKeys with
    | .raised e => (.raised e, c)
    | .err e => (.err e, c)
    | .ok inDir =>
      if ¬ inDir then (.err .entityNotFound, c)
      else (.err .notConnected, c)

/-- `Component.message_entity` (source lines 465-487): the directory
membership test on line 476 raises before anything else can happen; the
two ConnectionError returns and the delivery
`self.entities[entity].push_message(message)` are unreachable. -/
def Component.message_entity (c : Component) (entity : String)
    (_message : Message) : PyResult Unit :=
  match inEntitiesKeys entity with
  | .raised e => .raised e
  | .err e => .err e
  | .ok inDir =>
    if ¬ inDir then .err .entityNotFound
    else if ¬ c.connected_entities.contains entity then .err .notConnected
    else .ok ()

/-- `Component.modify_api_permission` (source lines 489-521): KeyError
when the operation name is not in the permission table, PermissionError
when the global `api_mutable` predicate rejects the context, otherwise
the table is reassigned at the name. -/
def Component.modify_api_permission (c : Component) (key : String)
    (value : Dyn → Bool) (context : Dyn) : PyResult Unit × Component :=
  match c.api_permissions key with
  | Option.none => (.err .operationNotFound, c)
  | some _ =>
    if ¬ c.api_mutable context then (.err .permissionLocked, c)
    else
      (.ok (), { c with api_permissions :=
          fun k => if k = key then some (.pred value)
                   else c.api_permissions k })

/-- The empty process-wide directory. -/
def emptyDirectory : Directory := fun _ => Option.none

/-- A component built with the constructor defaults of source lines
92-102: always-true connection and disconnection criteria, mutable
criteria, no `api_accessibility` dict, never-mutable api. -/
def defaultComponent : Component :=
  (initComponent "A" 0 emptyDirectory (fun _ => 0) (fun _ _ => true)
    (fun _ _ => true) true true Option.none (fun _ => false)).1

/-- A message requesting the operation `get` with the key "x" and a
*present* context field holding the integer 0. -/
def msgGetZeroContext : Message :=
  { source := .obj, func := "get", func_context := .obj, metadata := .obj,
    key := .str "x", value := .none, accessor := .none, mutator := .none,
    context := .int 0, criteria := .none, entity := .none }

/-- A message requesting the internal operation `run` (which has no
formal parameters to bind). -/
def msgRun : Message :=
  { source := .obj, func := "run", func_context := .obj, metadata := .obj,
    key := .none, value := .none, accessor := .none, mutator := .none,
    context := .none, criteria := .none, entity := .none }

/-- Claim C4 is false on the code: dispatching the exposed and permitted
operation `get` with a message whose `context` field is present but
holds the (falsy) integer 0 fails with the binding error naming
`context`, because the check on source line 374 is `if not arg:` —
truthiness, not presence. -/
theorem dispatch_reports_present_falsy_field_missing :
    defaultComponent.execute_message_contents msgGetZeroContext =
      .err (.argumentBindingError "context") := by rfl

/-- Claim C5 is false on the code: on a component whose queue is empty,
`run` does not fail with the ComponentBlocked error — the guard on
source line 538 tests the truthiness of the class `Message` instead of
the popped variable, so execution reaches
`execute_message_contents(None)` and raises AttributeError. -/
theorem run_on_empty_queue_raises_instead_of_blocked :
    (defaultComponent.run).1 = .raised .attributeError ∧
    (defaultComponent.run).1 ≠ .err .componentBlocked := by
  refine ⟨rfl, ?_⟩
  decide

/-- Claim C6 is false on the code: with an always-true connection
criterion, `connect_entity` raises TypeError (the membership test on
source line 435 is against the un-called bound method `keys`) instead of
succeeding, and the connected set is left unchanged — the name is never
added. -/
theorem connect_entity_raises_type_error :
    (defaultComponent.connect_entity "B" .none).1 = .raised .typeError ∧
    (defaultComponent.connect_entity "B" .none).2.connected_entities =
      defaultComponent.connected_entities := by
  constructor <;> rfl

/-- Claim C7 is false on the code: `message_entity` on an unregistered
(equally, an unconnected) entity raises TypeError from the membership
test on source line 476 instead of returning its typed ConnectionError
value. -/
theorem message_entity_raises_type_error :
    defaultComponent.message_entity "ghost" msgGetZeroContext =
      .raised .typeError := by rfl

/-- Claim C8 is false on the code: construction registers the component
with the plain dict assignment `self.entities[self.__name__] = self`
(source line 121), so a second construction under an already-existing
name silently replaces the directory entry instead of failing: after
registering component 0 and then component 1 under "A", the directory
maps "A" to component 1, no longer to component 0. -/
theorem second_registration_silently_overwrites :
    ((initComponent "A" 0 emptyDirectory (fun _ => 0) (fun _ _ => true)
        (fun _ _ => true) true true Option.none (fun _ => false)).2) "A"
      = some 0 ∧
    ((initComponent "A" 1
        ((initComponent "A" 0 emptyDirectory (fun _ => 0) (fun _ _ => true)
            (fun _ _ => true) true true Option.none (fun _ => false)).2)
        (fun _ => 0) (fun _ _ => true) (fun _ _ => true) true true
        Option.none (fun _ => false)).2) "A" = some 1 ∧
    (some 1 : Option Nat) ≠ some 0 := by
  refine ⟨rfl, rfl, ?_⟩
  decide

theorem bindArgs_shape (m : Message) (ps : List String) :
    (∃ l, bindArgs m ps = .ok l) ∨
    (∃ p, bindArgs m ps = .err (.argumentBindingError p)) := by
  induction ps with
  | nil => exact Or.inl ⟨[], rfl⟩
  | cons p rest ih =>
    by_cases hp : (m.getattr p).truthy = true
    · rcases ih with ⟨l, hl⟩ | ⟨q, hq⟩
      · exact Or.inl ⟨(p, m.getattr p) :: l, by simp [bindArgs, hp, hl]⟩
      · exact Or.inr ⟨q, by simp [bindArgs, hp, hq]⟩
    · exact Or.inr ⟨p, by simp [bindArgs, hp]⟩

/-- Claim C10: a component constructed without an explicit
`api_accessibility` table exposes, as its operation table, the set of
ALL of the bound methods discovered by introspection — including the
internal machinery `run`, `push_message`, `get_next_message`,
`execute_message_contents` and `add` — the permission table covers
exactly that key set, every entry is an always-true predicate, and on
dispatch of any message naming any of those methods neither the
OperationNotFound nor the PermissionDenied gate fires. -/
theorem default_construction_exposes_all_methods
    (ctx : Dyn) (k : String) (m : Message)
    (hk : k ∈ componentMethodNames) (hm : m.func = k) :
    defaultComponent.exec_list = componentMethodNames ∧
    (["run", "push_message", "get_next_message", "execute_message_contents",
      "add"].all (fun n => componentMethodNames.contains n)) = true ∧
    (∀ k2, (defaultComponent.api_permissions k2).isSome =
      componentMethodNames.contains k2) ∧
    (∃ f, defaultComponent.api_permissions k = some (.pred f) ∧ f ctx = true) ∧
    defaultComponent.execute_message_contents m ≠ .err .operationNotFound ∧
    defaultComponent.execute_message_contents m ≠ .err .permissionDenied := by
  have hel : defaultComponent.exec_list = componentMethodNames := rfl
  have hperm : defaultComponent.api_permissions k =
      some (.pred (fun _ => true)) := by
    simp [defaultComponent, initComponent, hk]
  have hchar :
      (∃ l, defaultComponent.execute_message_contents m = .ok (.call k l)) ∨
      (∃ p, defaultComponent.execute_message_contents m =
        .err (.argumentBindingError p)) := by
    unfold Component.execute_message_contents
    rw [hm, hel, hperm]
    rcases bindArgs_shape m (paramNames k) with ⟨l, hl⟩ | ⟨q, hq⟩
    · exact Or.inl ⟨l, by simp [hk, ApiPerm.callOn, hl]⟩
    · exact Or.inr ⟨q, by simp [hk, ApiPerm.callOn, hq]⟩
  refine ⟨hel, by decide, ?_, ⟨fun _ => true, hperm, rfl⟩, ?_, ?_⟩
  · intro k2
    by_cases h2 : k2 ∈ componentMethodNames
    · simp [defaultComponent, initComponent, h2]
    · simp [defaultComponent, initComponent, h2]
  · rcases hchar with ⟨l, hl⟩ | ⟨q, hq⟩
    · simp [hl]
    · simp [hq]
  · rcases hchar with ⟨l, hl⟩ | ⟨q, hq⟩
    · simp [hl]
    · simp [hq]

/-- Witness for C10 at a concrete input: context None, the internal
method `run`, and the concrete message `msgRun` naming it. -/
theorem default_construction_exposes_all_methods_witness :
    "run" ∈ componentMethodNames ∧
    msgRun.func = "run" ∧
    (defaultComponent.exec_list = componentMethodNames ∧
     (["run", "push_message", "get_next_message", "execute_message_contents",
       "add"].all (fun n => componentMethodNames.contains n)) = true ∧
     (∀ k2, (defaultComponent.api_permissions k2).isSome =
       componentMethodNames.contains k2) ∧
     (∃ f, defaultComponent.api_permissions "run" = some (.pred f) ∧
       f .none = true) ∧
     defaultComponent.execute_message_contents msgRun ≠
       .err .operationNotFound ∧
     defaultComponent.execute_message_contents msgRun ≠
       .err .permissionDenied) :=
  ⟨by decide, rfl,
    default_construction_exposes_all_methods .none "run" msgRun
      (by decide) rfl⟩
